import Mathlib

/-!
Verification of the DeploySure Suite dashboard (src/snowapp.py).

The program is a thin orchestration layer over a SQL warehouse: every
operation formats a SQL string, executes it on the warehouse, and reshapes
the tabular answer.  The shallow embedding below models the warehouse as an
oracle (a function from statements to `Except`-wrapped row sets) and
translates each Python function into a pure Lean function over that oracle.
Warehouse cell values are modelled by their Python `str()` image, so the
value type is `String` throughout.  All string operations are modelled for
the ASCII identifiers the application manipulates (Python `str.upper`,
`str.strip`, `re` word characters agree with the Lean ASCII versions there).
-/

/-- Word character test used by the regular-expression word boundary `\b`
of Python `re` (ASCII fragment: letters, digits, underscore). -/
def isWordChar (c : Char) : Bool := c.isAlphanum || c == '_'

/-- Lift of `isWordChar` to `Option Char`; a missing character (start or end
of the string) counts as a non-word character, exactly as `re` treats the
ends of the subject string. -/
def isWordOpt : Option Char → Bool
  | some c => isWordChar c
  | none => false

/-- A `\b` word boundary holds between two (optional) characters exactly
when one of them is a word character and the other is not. -/
def wordBoundary (a b : Option Char) : Bool := isWordOpt a != isWordOpt b

/-- Case-insensitive "starts with" on character lists: models matching the
`re.escape`d literal pattern under `re.IGNORECASE` (ASCII case folding). -/
def ciStartsWith : List Char → List Char → Bool
  | [], _ => true
  | _ :: _, [] => false
  | a :: as, b :: bs => (a.toLower == b.toLower) && ciStartsWith as bs

/-- Worker for `pyWordSub`.  Scans the subject left to right; at each
position, if the (non-empty) pattern matches case-insensitively and both
ends of the match sit on a `\b` word boundary, the replacement is emitted
and scanning resumes after the matched text, otherwise one character is
copied.  `fuel` is an upper bound on the remaining subject length used only
to make the recursion structural; it never runs out when initialised with
the subject length, because each step consumes at least one subject
character and one unit of fuel. -/
def subWordAux (pat repl : List Char) : Nat → Option Char → List Char → List Char
  | 0, _, s => s
  | _ + 1, _, [] => []
  | fuel + 1, prev, c :: rest =>
    if pat.length ≠ 0 ∧ ciStartsWith pat (c :: rest) = true ∧
        wordBoundary prev (some c) = true ∧
        wordBoundary (((c :: rest).take pat.length).getLast?)
          (((c :: rest).drop pat.length).head?) = true then
      repl ++ subWordAux pat repl fuel (((c :: rest).take pat.length).getLast?)
        ((c :: rest).drop pat.length)
    else
      c :: subWordAux pat repl fuel (some c) rest

/-- Model of `re.sub(rf"\b{re.escape(pattern)}\b", replacement, s,
flags=re.IGNORECASE)` from `validate_test_cases` (src/snowapp.py:491-496):
every whole-word, case-insensitive occurrence of the literal `pattern` is
replaced by `replacement`, scanning left to right without overlap. -/
def pyWordSub (pattern replacement s : String) : String :=
  ⟨subWordAux pattern.data replacement.data s.data.length none s.data⟩

/-- The table-qualification rewrite of `validate_test_cases`: every
whole-word, case-insensitive occurrence of `tableName` in `sql` becomes
`database.schema.tableName`. -/
def qualifySql (database schema tableName sql : String) : String :=
  pyWordSub tableName (database ++ "." ++ schema ++ "." ++ tableName) sql

/-- Model of Python `str(e).split(chr(10))[0]`: the text before the first
newline, used to truncate warehouse error messages
(src/snowapp.py:513). -/
def firstLine (s : String) : String := s.takeWhile (fun ch => ch != '\n')

/-- Model of Python `str.strip()` (src/snowapp.py:487): whitespace removed
from both ends. -/
def pyStrip (s : String) : String :=
  ⟨((s.data.dropWhile Char.isWhitespace).reverse.dropWhile
      Char.isWhitespace).reverse⟩

/-- Model of Python `str.upper()` (src/snowapp.py:154) on the ASCII
identifiers the application compares. -/
def pyUpper (s : String) : String := ⟨s.data.map Char.toUpper⟩

/-- A row of the `TEST_CASES` catalog table, in the column order
`(TEST_CASE_ID, TEST_ABBREVIATION, TABLE_NAME, TEST_DESCRIPTION, SQL_CODE,
EXPECTED_RESULT)` unpacked at src/snowapp.py:486.  Every cell is modelled
by its `str()` image. -/
structure TestCase where
  testId : String
  abbrevName : String
  tableName : String
  descr : String
  sqlCode : String
  expected : String
deriving DecidableEq

/-- One result row of `validate_test_cases` (the dict appended at
src/snowapp.py:503-509 and 514-520). -/
structure TCResult where
  testCase : String
  category : String
  expectedResult : String
  actualResult : String
  status : String
deriving DecidableEq

/-- Body of the per-case loop of `validate_test_cases`
(src/snowapp.py:485-522).  `exec` is the warehouse oracle: `Except.error e`
models the cursor raising an exception with message `e`, `Except.ok none`
models `fetchone()` returning no row, and `Except.ok (some row)` a fetched
row of cell values.  Python evaluates `str(result[0]) if result else "0"`,
so both a missing row and an empty row tuple yield the literal `"0"`. -/
def runTestCase (exec : String → Except String (Option (List String)))
    (database schema : String) (c : TestCase) : TCResult :=
  let expected := pyStrip c.expected
  match exec (qualifySql database schema c.tableName c.sqlCode) with
  | Except.error e =>
      ⟨c.abbrevName, c.tableName, expected, "QUERY ERROR: " ++ firstLine e,
        "❌ EXECUTION ERROR"⟩
  | Except.ok r =>
      let actual : String :=
        match r with
        | some (v :: _) => v
        | _ => "0"
      ⟨c.abbrevName, c.tableName, expected, actual,
        if actual = expected then "✅ PASS" else "❌ FAIL"⟩

/-- `validate_test_cases` (src/snowapp.py:475-525): runs each selected case
in order and returns the result rows plus the status message.  The missing
connection guard is outside the model (the oracle stands for a live
connection). -/
def validateTestCases (exec : String → Except String (Option (List String)))
    (database schema : String) (cases : List TestCase) :
    List TCResult × String :=
  if cases.isEmpty then ([], "⚠️ No test cases selected")
  else (cases.map (runTestCase exec database schema), "✅ Validation completed")

/-- Unsorted row set of the table-diff SQL query of
`compare_table_differences` (src/snowapp.py:277-299): the full outer join
of the two table-name sets restricted by `WHERE s.table_name IS NULL OR
c.table_name IS NULL`, with the `CASE` classification.  Inputs are the
`information_schema.tables` name lists of the two schemas (distinct per
schema).  Each row is `(table_name, difference)`. -/
def tableDiffRowsUnsorted (sourceTables cloneTables : List String) :
    List (String × String) :=
  (sourceTables.filter (fun t => !(cloneTables.contains t))).map
      (fun t => (t, "Missing in clone - Table Added")) ++
    (cloneTables.filter (fun t => !(sourceTables.contains t))).map
      (fun t => (t, "Missing in source - Table Dropped"))

/-- The `ORDER BY difference, table_name` key of the table-diff query:
classification first, then table name. -/
def tableDiffLE (a b : String × String) : Prop :=
  a.2 < b.2 ∨ (a.2 = b.2 ∧ a.1 ≤ b.1)

instance : DecidableRel tableDiffLE := fun a b => by
  unfold tableDiffLE
  infer_instance

instance : IsTotal (String × String) tableDiffLE := ⟨by
  intro a b
  rcases lt_trichotomy a.2 b.2 with h | h | h
  · exact Or.inl (Or.inl h)
  · rcases le_total a.1 b.1 with h1 | h1
    · exact Or.inl (Or.inr ⟨h, h1⟩)
    · exact Or.inr (Or.inr ⟨h.symm, h1⟩)
  · exact Or.inr (Or.inl h)⟩

instance : IsTrans (String × String) tableDiffLE := ⟨by
  intro a b c hab hbc
  rcases hab with h1 | h1
  · rcases hbc with h2 | h2
    · exact Or.inl (lt_trans h1 h2)
    · exact Or.inl (lt_of_lt_of_le h1 (le_of_eq h2.1))
  · rcases hbc with h2 | h2
    · exact Or.inl (lt_of_le_of_lt (le_of_eq h1.1) h2)
    · exact Or.inr ⟨h1.1.trans h2.1, le_trans h1.2 h2.2⟩⟩

/-- `compare_table_differences` (src/snowapp.py:271-309): the rows of the
diff query, ordered by `(difference, table_name)`. -/
def compareTableDifferences (sourceTables cloneTables : List String) :
    List (String × String) :=
  List.insertionSort tableDiffLE (tableDiffRowsUnsorted sourceTables cloneTables)

/-- One row of the column-presence diff of `compare_column_differences`
(the dicts appended at src/snowapp.py:353-367).  The data-type cells hold
`None` on the missing side, modelled by `Option`. -/
structure ColDiffRow where
  table : String
  column : String
  difference : String
  sourceType : Option String
  cloneType : Option String
deriving DecidableEq

/-- One row of the data-type diff of `compare_column_differences`
(the dict appended at src/snowapp.py:370-376). -/
structure TypeDiffRow where
  table : String
  column : String
  sourceType : String
  cloneType : String
  difference : String
deriving DecidableEq

/-- Model of the Python dict comprehension `{row[0]: row[1] for row in
desc}` followed by `.get(col)`: the value of the last binding of `col`, if
any (later duplicate keys overwrite earlier ones). -/
def dictGet (rows : List (String × String)) (k : String) : Option String :=
  (rows.reverse.find? (fun p => p.1 == k)).map (fun p => p.2)

/-- Warehouse metadata for one drift comparison: the
`information_schema.tables` name lists of the two schemas, and the
`DESCRIBE TABLE` oracle of each side, returning `(column name, type)` rows
or an error. -/
structure SchemaMeta where
  sourceTables : List String
  cloneTables : List String
  describeSource : String → Except String (List (String × String))
  describeClone : String → Except String (List (String × String))

/-- The common-tables query of `compare_column_differences`
(src/snowapp.py:317-324): the inner join of the two table-name lists on
name equality (for the duplicate-free `information_schema` inputs this is
the intersection, in source-side order). -/
def commonList (m : SchemaMeta) : List String :=
  m.sourceTables.filter (fun t => m.cloneTables.contains t)

/-- The set union `set(source_cols.keys()).union(set(clone_cols.keys()))`
iterated by the inner loop; each distinct column name appears once, in an
order the source leaves unspecified (Python set iteration order). -/
def allColsOf (s c : List (String × String)) : List String :=
  ((s.map Prod.fst) ++ (c.map Prod.fst)).dedup

/-- Classification of one column of one common table
(src/snowapp.py:348-376): absent from the source side gives a
column-presence row, absent from the clone side gives a column-presence
row, present on both sides with differing types gives a type row, and
identical types give nothing. -/
def classifyCol (table col : String) (s c : List (String × String)) :
    List ColDiffRow × List TypeDiffRow :=
  match dictGet s col, dictGet c col with
  | none, ct =>
      ([⟨table, col, "Missing in source - Column Dropped", none, ct⟩], [])
  | some st, none =>
      ([⟨table, col, "Missing in clone - Column Added", some st, none⟩], [])
  | some st, some ct =>
      if st = ct then ([], [])
      else ([], [⟨table, col, st, ct, "Data Type Changed"⟩])

/-- All rows contributed by one common table whose two `DESCRIBE` calls
succeeded with column lists `s` and `c`. -/
def classifyTable (table : String) (s c : List (String × String)) :
    List ColDiffRow × List TypeDiffRow :=
  ((allColsOf s c).flatMap (fun col => (classifyCol table col s c).1),
    (allColsOf s c).flatMap (fun col => (classifyCol table col s c).2))

/-- One iteration of the per-table loop of `compare_column_differences`
(src/snowapp.py:336-380): the two `DESCRIBE` statements are issued, and any
failure is caught by the `except ... continue`, contributing no rows. -/
def perTableDiffs (m : SchemaMeta) (t : String) :
    List ColDiffRow × List TypeDiffRow :=
  match m.describeSource t, m.describeClone t with
  | Except.ok s, Except.ok c => classifyTable t s c
  | _, _ => ([], [])

/-- `compare_column_differences` (src/snowapp.py:311-391): iterates the
common tables and returns the two separate result tables (column-presence
diffs, data-type diffs). -/
def compareColumnDifferences (m : SchemaMeta) :
    List ColDiffRow × List TypeDiffRow :=
  ((commonList m).flatMap (fun t => (perTableDiffs m t).1),
    (commonList m).flatMap (fun t => (perTableDiffs m t).2))

/-- The SQL statements issued by `clone_schema`, abstracted by shape. -/
inductive CloneStmt where
  | showSchemasLike (pattern database : String)
  | createOrReplaceClone (database target sourceSchema : String)
  | showTablesIn (database schema : String)
deriving DecidableEq

/-- The one-row summary DataFrame built by `clone_schema`
(src/snowapp.py:255-262). -/
structure CloneSummary where
  database : String
  sourceSchema : String
  cloneSchema : String
  sourceTables : Nat
  clonedTables : Nat
  status : String
deriving DecidableEq

/-- The `(success, message, df_tables)` triple returned by `clone_schema`,
extended with the ordered list of statements actually issued to the
warehouse (for the no-mutation property). -/
structure CloneOutcome where
  success : Bool
  message : String
  summary : Option CloneSummary
  issued : List CloneStmt
deriving DecidableEq

/-- Helper building the single-quote character, so source messages
containing one can be reproduced verbatim. -/
def singleQuote : String := (Char.ofNat 39).toString

/-- `clone_schema` (src/snowapp.py:226-269) over a warehouse oracle `exec`
(Python falsy empty strings trigger the argument guard).  The oracle
returns the `fetchall()` row list of a statement, or an error caught by the
surrounding `except`.  Every statement issued before returning is recorded
in `issued`. -/
def cloneSchemaRun (exec : CloneStmt → Except String (List (List String)))
    (sourceDb sourceSchema targetSchema : String) : CloneOutcome :=
  if sourceDb = "" ∨ sourceSchema = "" ∨ targetSchema = "" then
    ⟨false,
      "⚠️ Please provide Source Database, Source Schema, and a Target Schema name.",
      none, []⟩
  else
    let s1 := CloneStmt.showSchemasLike sourceSchema sourceDb
    match exec s1 with
    | Except.error e => ⟨false, "❌ Clone failed: " ++ e, none, [s1]⟩
    | Except.ok [] =>
        ⟨false,
          "❌ Source schema " ++ sourceDb ++ "." ++ sourceSchema ++ " doesn" ++
            singleQuote ++ "t exist",
          none, [s1]⟩
    | Except.ok (_ :: _) =>
        let s2 := CloneStmt.createOrReplaceClone sourceDb targetSchema sourceSchema
        match exec s2 with
        | Except.error e => ⟨false, "❌ Clone failed: " ++ e, none, [s1, s2]⟩
        | Except.ok _ =>
            let s3 := CloneStmt.showSchemasLike targetSchema sourceDb
            match exec s3 with
            | Except.error e =>
                ⟨false, "❌ Clone failed: " ++ e, none, [s1, s2, s3]⟩
            | Except.ok [] =>
                ⟨false, "❌ Clone failed - target schema not created", none,
                  [s1, s2, s3]⟩
            | Except.ok (_ :: _) =>
                let s4 := CloneStmt.showTablesIn sourceDb sourceSchema
                match exec s4 with
                | Except.error e =>
                    ⟨false, "❌ Clone failed: " ++ e, none, [s1, s2, s3, s4]⟩
                | Except.ok sourceRows =>
                    let s5 := CloneStmt.showTablesIn sourceDb targetSchema
                    match exec s5 with
                    | Except.error e =>
                        ⟨false, "❌ Clone failed: " ++ e, none,
                          [s1, s2, s3, s4, s5]⟩
                    | Except.ok cloneRows =>
                        ⟨true,
                          "✅ Successfully Mirrored Schema " ++ sourceDb ++ "." ++
                            sourceSchema ++ " to " ++ sourceDb ++ "." ++
                            targetSchema,
                          some ⟨sourceDb, sourceSchema, targetSchema,
                            sourceRows.length, cloneRows.length,
                            if sourceRows.length = cloneRows.length then
                              "✅ Success"
                            else "⚠️ Partial Success"⟩,
                          [s1, s2, s3, s4, s5]⟩

/-- One detailed-result row of the data-quality battery (the dicts built at
src/snowapp.py:550 and 555/570).  Numeric cells are modelled by their
`str()` image. -/
structure DQRow where
  check : String
  columnName : String
  expected : String
  actual : String
  status : String
  details : String
deriving DecidableEq

/-- `DataQualityValidator._run_row_count_check` (src/snowapp.py:545-550):
`count` is the warehouse answer to `SELECT COUNT(*)`, `minRows` the
configured minimum; pass exactly when `count >= minRows`. -/
def rowCountCheck (count minRows : Nat) : DQRow :=
  ⟨"Row Count Check", "N/A", ">= " ++ toString minRows, toString count,
    if minRows ≤ count then "✅ Pass" else "❌ Fail",
    "Actual rows: " ++ toString count ++ ", Minimum expected: " ++
      toString minRows⟩

/-- Semantics of the duplicate-count SQL of `_run_duplicate_rows_check`
(src/snowapp.py:558-566): grouping the full rows of the table and counting
the groups with more than one member. -/
def dupGroupCount (rows : List (List String)) : Nat :=
  (rows.dedup.filter (fun g => decide (1 < rows.count g))).length

/-- A warehouse table as seen by the duplicate check: the
`INFORMATION_SCHEMA` column list (name, upper-cased type) and the table
rows in column order. -/
structure DQTable where
  cols : List (String × String)
  rows : List (List String)

/-- `DataQualityValidator._run_duplicate_rows_check`
(src/snowapp.py:552-570): with no discoverable columns the check reports
`"⚠️ N/A"`; otherwise it passes exactly when the duplicate-group count is
zero. -/
def duplicateRowsCheck (cols : List (String × String))
    (rows : List (List String)) : DQRow :=
  if cols.isEmpty then
    ⟨"Duplicate Rows Check", "All Columns", "0", "N/A", "⚠️ N/A",
      "No columns found to check for duplicates."⟩
  else
    ⟨"Duplicate Rows Check", "All Columns", "0", toString (dupGroupCount rows),
      if dupGroupCount rows = 0 then "✅ Pass" else "❌ Fail",
      "Number of duplicate rows: " ++ toString (dupGroupCount rows)⟩

/-- The mutable counters of `run_dq_checks`
(src/snowapp.py:577-581): total, passed, failed, error check counts, the
running score (starting at 100) and the detailed rows. -/
structure DQState where
  total : Nat
  passed : Nat
  failed : Nat
  errors : Nat
  score : Int
  detailed : List DQRow
deriving DecidableEq

/-- The single-result arm of the nested `process_check_result`
(src/snowapp.py:587-612): a non-`"⚠️ Skip"` result is counted and recorded;
a pass increments `passed`, a fail or error increments its counter and
deducts `penalty` from the running score.  (The list arm of the Python
helper is never reached by the two implemented checks, which return single
dicts.) -/
def processCheckResult (st : DQState) (res : DQRow) (penalty : Int) : DQState :=
  if res.status = "⚠️ Skip" then st
  else
    let total := st.total + 1
    let detailed := st.detailed ++ [res]
    if res.status = "✅ Pass" then
      ⟨total, st.passed + 1, st.failed, st.errors, st.score, detailed⟩
    else if res.status = "❌ Fail" then
      ⟨total, st.passed, st.failed + 1, st.errors, st.score - penalty, detailed⟩
    else if res.status = "❌ Error" then
      ⟨total, st.passed, st.failed, st.errors + 1, st.score - penalty, detailed⟩
    else
      ⟨total, st.passed, st.failed, st.errors, st.score, detailed⟩

/-- Model of Python float formatting `f"{x:.2f}"` applied to an integer
value (the score is an `int` in the source): the decimal digits followed by
`".00"`. -/
def pyFormatFixed2 (n : Int) : String := toString n ++ ".00"

/-- The observable output of `run_dq_checks`: the summary counters, the
final score, the detailed rows, the summary `Quality Score` cell
(`f"{overall_score:.2f}%"`, src/snowapp.py:630) and the score box text
(`f"{overall_score:.0f}/100"`, src/snowapp.py:635). -/
structure DQOutcome where
  totalChecks : Nat
  passedChecks : Nat
  failedChecks : Nat
  errorChecks : Nat
  overallScore : Int
  detailed : List DQRow
  qualityScoreDisplay : String
  scoreHtml : String

/-- `DataQualityValidator.run_dq_checks` (src/snowapp.py:572-668) on the
happy path, for the two implemented checks.  `rowCountAnswer` is the
warehouse answer to the `COUNT(*)` query and `tbl` the table metadata and
contents seen by the duplicate check; the two booleans are the UI toggles
`dq_check_row_count` and `dq_check_duplicate_rows`, and `minRows` is
`dq_min_rows`.  The score starts at 100, each processed check can deduct
its penalty of 10, and the final score is clamped at 0. -/
def runDqChecks (rowCountAnswer : Nat) (tbl : DQTable)
    (checkRowCount : Bool) (minRows : Nat) (checkDuplicateRows : Bool) :
    DQOutcome :=
  let st0 : DQState := ⟨0, 0, 0, 0, 100, []⟩
  let st1 :=
    if checkRowCount then
      processCheckResult st0 (rowCountCheck rowCountAnswer minRows) 10
    else st0
  let st2 :=
    if checkDuplicateRows then
      processCheckResult st1 (duplicateRowsCheck tbl.cols tbl.rows) 10
    else st1
  let finalScore : Int := max 0 st2.score
  ⟨st2.total, st2.passed, st2.failed, st2.errors, finalScore, st2.detailed,
    pyFormatFixed2 finalScore ++ "%", toString finalScore ++ "/100"⟩

/-- Aggregate score as the specification words it: "Aggregate score =
passed/total × 100".  This definition follows the spec text, for comparison
against the score the code computes. -/
def specAggregateScore (passed total : Nat) : ℚ :=
  (passed : ℚ) / (total : ℚ) * 100

/-- Warehouse answers needed by the `TEST_CASES` catalog readers: the
`information_schema` existence count for the `TEST_CASES` table, the
unfiltered catalog rows, the per-table filtered rows, and the distinct
`TABLE_NAME` values. -/
structure TestCatalog where
  tcTableCount : Nat
  allCases : List TestCase
  casesFor : String → List TestCase
  distinctTables : List String

/-- `get_test_cases` (src/snowapp.py:423-473): empty-string arguments are
Python-falsy and return `[]`; a zero existence count for `TEST_CASES`
returns `[]`; otherwise the catalog is read, unfiltered for the `"All"`
filter and filtered by table otherwise. -/
def getTestCases (o : TestCatalog) (database schema table : String) :
    List TestCase :=
  if database = "" ∨ schema = "" then []
  else if o.tcTableCount = 0 then []
  else if table = "All" then o.allCases
  else o.casesFor table

/-- `get_test_case_tables` (src/snowapp.py:393-421): missing arguments or a
missing `TEST_CASES` table degrade to the bare `["All"]` sentinel;
otherwise the distinct catalog table names follow `"All"`. -/
def getTestCaseTables (o : TestCatalog) (database schema : String) :
    List String :=
  if database = "" ∨ schema = "" then ["All"]
  else if o.tcTableCount = 0 then ["All"]
  else "All" :: o.distinctTables

/-- `get_tables` (src/snowapp.py:145-160) applied to the `SHOW TABLES`
answer: tables whose upper-cased name is `TEST_CASES` or `ORDER_KPIS` are
filtered out before the list is offered in the UI. -/
def getTables (tables : List String) : List String :=
  tables.filter (fun t =>
    !(pyUpper t == "TEST_CASES" || pyUpper t == "ORDER_KPIS"))

/-- Concrete oracle answering every query with the single row `("10")`. -/
def execRow10 : String → Except String (Option (List String)) :=
  fun _ => Except.ok (some ["10"])

/-- Concrete oracle failing every query with message `boom`. -/
def execBoom : String → Except String (Option (List String)) :=
  fun _ => Except.error "boom"

/-- Concrete test case whose expected result carries surrounding blanks. -/
def caseOrders : TestCase :=
  ⟨"1", "TC_COUNT", "ORDERS", "row count", "SELECT COUNT(*) FROM ORDERS",
    " 10 "⟩

/-- Concrete test case used with the failing oracle. -/
def caseErr : TestCase :=
  ⟨"2", "TC_ERR", "ORDERS", "broken", "SELECT", "1"⟩

/-- Drift metadata where table `T1` is common to both schemas but its
source-side `DESCRIBE` fails, and `T2` is an identical common table. -/
def cexMeta : SchemaMeta :=
  ⟨["T1", "T2"], ["T1", "T2"],
    fun t => if t = "T1" then Except.error "boom" else Except.ok [("C", "INT")],
    fun _ => Except.ok [("C", "INT")]⟩

/-- Drift metadata with one common table whose single column changed type. -/
def typeChangeMeta : SchemaMeta :=
  ⟨["T"], ["T"],
    fun _ => Except.ok [("A", "INT")],
    fun _ => Except.ok [("A", "TEXT")]⟩

/-- Clone oracle on which every `fetchall()` comes back empty, so the
source-schema existence check fails. -/
def execCloneMissing : CloneStmt → Except String (List (List String)) :=
  fun _ => Except.ok []

/-- Clone oracle on which the clone nominally succeeds but the cloned
schema `TGT` shows zero tables while the source shows one. -/
def execCloneMismatch : CloneStmt → Except String (List (List String)) :=
  fun s =>
    match s with
    | CloneStmt.showTablesIn _ sch =>
        if sch = "TGT" then Except.ok [] else Except.ok [["T1"]]
    | _ => Except.ok [["X"]]

/-- Concrete one-column, one-row table for the data-quality witnesses. -/
def dqTbl : DQTable := ⟨[("A", "NUMBER")], [["1"]]⟩

/-- Concrete catalog oracle whose `TEST_CASES` existence count is zero. -/
def emptyCatalog : TestCatalog := ⟨0, [caseOrders], fun _ => [caseOrders], ["ORDERS"]⟩

/-- Invariant of the score accumulation: after any sequence of processed
checks with penalty 10, the running score is `100` minus `10` for each
failed and each error check. -/
theorem processCheckResult_score_inv (st : DQState) (res : DQRow)
    (h : st.score = 100 - 10 * ((st.failed : Int) + (st.errors : Int))) :
    (processCheckResult st res 10).score =
      100 - 10 * (((processCheckResult st res 10).failed : Int) +
        ((processCheckResult st res 10).errors : Int)) := by
  unfold processCheckResult
  split
  · exact h
  · split
    · dsimp only
      exact h
    · split
      · dsimp only
        push_cast
        omega
      · split
        · dsimp only
          push_cast
          omega
        · dsimp only
          exact h

/-- Score invariant threaded through one optional check of
`run_dq_checks`. -/
theorem dqStep_score_inv (st : DQState) (b : Bool) (res : DQRow)
    (h : st.score = 100 - 10 * ((st.failed : Int) + (st.errors : Int))) :
    (if b then processCheckResult st res 10 else st).score =
      100 - 10 * (((if b then processCheckResult st res 10 else st).failed : Int) +
        ((if b then processCheckResult st res 10 else st).errors : Int)) := by
  cases b
  · simpa using h
  · simpa using processCheckResult_score_inv st res h

/-- C1, counterexample.  With only the row-count check enabled, a minimum
of 1 and an actual count of 0, one check ran and zero passed, yet the
reported aggregate quality score is 90 (displayed as `90.00%`), while the
formula the claim states, (passed/total) × 100, gives 0.  The code scores
100 minus a 10-point penalty per failed check, not passed/total × 100. -/
theorem c1_quality_score_counterexample :
    (runDqChecks 0 ⟨[], []⟩ true 1 false).totalChecks = 1 ∧
    (runDqChecks 0 ⟨[], []⟩ true 1 false).passedChecks = 0 ∧
    (runDqChecks 0 ⟨[], []⟩ true 1 false).overallScore = 90 ∧
    (runDqChecks 0 ⟨[], []⟩ true 1 false).qualityScoreDisplay = "90.00%" ∧
    specAggregateScore 0 1 ≠ (90 : ℚ) := by
  refine ⟨by decide, by decide, by decide, by decide, ?_⟩
  norm_num [specAggregateScore]

/-- C1, amended.  For every invocation of the battery with at least one
check enabled, the reported aggregate quality score equals
max(0, 100 − 10 × (failed checks + error checks)); the summary cell
displays it with two decimals (`{score}.00%`, the Python `.2f` format of an
integer score) and the score box as an integer out of 100 — not
(passed/total) × 100 rounded to one decimal. -/
theorem c1_quality_score_amended (rowCountAnswer : Nat) (tbl : DQTable)
    (checkRowCount : Bool) (minRows : Nat) (checkDuplicateRows : Bool)
    (h : checkRowCount = true ∨ checkDuplicateRows = true) :
    (runDqChecks rowCountAnswer tbl checkRowCount minRows
        checkDuplicateRows).overallScore =
      max 0 (100 - 10 *
        (((runDqChecks rowCountAnswer tbl checkRowCount minRows
            checkDuplicateRows).failedChecks : Int) +
         ((runDqChecks rowCountAnswer tbl checkRowCount minRows
            checkDuplicateRows).errorChecks : Int))) ∧
    (runDqChecks rowCountAnswer tbl checkRowCount minRows
        checkDuplicateRows).qualityScoreDisplay =
      pyFormatFixed2 ((runDqChecks rowCountAnswer tbl checkRowCount minRows
        checkDuplicateRows).overallScore) ++ "%" ∧
    (runDqChecks rowCountAnswer tbl checkRowCount minRows
        checkDuplicateRows).scoreHtml =
      toString ((runDqChecks rowCountAnswer tbl checkRowCount minRows
        checkDuplicateRows).overallScore) ++ "/100" := by
  refine ⟨?_, rfl, rfl⟩
  have h0 : (⟨0, 0, 0, 0, 100, []⟩ : DQState).score =
      100 - 10 * (((⟨0, 0, 0, 0, 100, []⟩ : DQState).failed : Int) +
        ((⟨0, 0, 0, 0, 100, []⟩ : DQState).errors : Int)) := by
    norm_num
  have h1 := dqStep_score_inv _ checkRowCount
    (rowCountCheck rowCountAnswer minRows) h0
  have h2 := dqStep_score_inv _ checkDuplicateRows
    (duplicateRowsCheck tbl.cols tbl.rows) h1
  unfold runDqChecks
  dsimp only
  rw [h2]

/-- C1, amended claim witnessed at a concrete run: row-count and duplicate
checks both enabled against a one-row table with minimum 1. -/
theorem c1_quality_score_amended_witness :
    (runDqChecks 5 dqTbl true 1 true).overallScore =
      max 0 (100 - 10 *
        (((runDqChecks 5 dqTbl true 1 true).failedChecks : Int) +
         ((runDqChecks 5 dqTbl true 1 true).errorChecks : Int))) :=
  (c1_quality_score_amended 5 dqTbl true 1 true (Or.inl rfl)).1

/-- C2: for every selected test case the runner executes the SQL text with
every whole-word, case-insensitive occurrence of the declared table name
rewritten to database.schema.table (the statement sent to the oracle is
`qualifySql`), takes the first column of the first fetched row as the
actual value — the literal "0" when no row (or an empty row) is returned —
and reports PASS exactly when the actual value equals the trimmed expected
value, FAIL otherwise. -/
theorem c2_test_case_runner
    (exec : String → Except String (Option (List String)))
    (db sch : String) (c : TestCase) :
    ((exec (qualifySql db sch c.tableName c.sqlCode) = Except.ok none ∨
        exec (qualifySql db sch c.tableName c.sqlCode) = Except.ok (some [])) →
      (runTestCase exec db sch c).actualResult = "0" ∧
        (runTestCase exec db sch c).status =
          (if "0" = pyStrip c.expected then "✅ PASS" else "❌ FAIL")) ∧
    (∀ v rest,
      exec (qualifySql db sch c.tableName c.sqlCode) =
          Except.ok (some (v :: rest)) →
      (runTestCase exec db sch c).actualResult = v ∧
        (runTestCase exec db sch c).status =
          (if v = pyStrip c.expected then "✅ PASS" else "❌ FAIL")) := by
  constructor
  · rintro (h | h) <;> simp [runTestCase, h]
  · intro v rest h
    simp [runTestCase, h]

/-- C2 witnessed: a query answering the single cell "10" against expected
" 10 " (trimmed to "10") yields actual "10" and PASS. -/
theorem c2_test_case_runner_witness :
    (runTestCase execRow10 "D" "S" caseOrders).actualResult = "10" ∧
      (runTestCase execRow10 "D" "S" caseOrders).status = "✅ PASS" := by
  have h := (c2_test_case_runner execRow10 "D" "S" caseOrders).2 "10" [] rfl
  refine ⟨h.1, ?_⟩
  rw [h.2]
  decide

/-- C7: the row-count check passes exactly when the actual count is at
least the configured minimum, and the boundary case N = M passes. -/
theorem c7_row_count_boundary (N M : Nat) :
    ((rowCountCheck N M).status = "✅ Pass" ↔ M ≤ N) ∧
      (rowCountCheck M M).status = "✅ Pass" := by
  constructor
  · by_cases h : M ≤ N
    · simp [rowCountCheck, h]
    · rw [show (rowCountCheck N M).status = "❌ Fail" by
        simp [rowCountCheck, h]]
      constructor
      · intro hcontra
        exact absurd hcontra (by decide)
      · intro hcontra
        exact absurd hcontra h
  · simp [rowCountCheck]

/-- C8: the duplicate-rows check passes exactly when the number of
full-row groups with more than one member is zero, and with no
discoverable columns it reports not-applicable instead of failing. -/
theorem c8_duplicate_rows (cols : List (String × String))
    (rows : List (List String)) :
    (cols = [] → (duplicateRowsCheck cols rows).status = "⚠️ N/A") ∧
      (cols ≠ [] →
        ((duplicateRowsCheck cols rows).status = "✅ Pass" ↔
          dupGroupCount rows = 0)) := by
  constructor
  · intro h
    subst h
    rfl
  · intro h
    unfold duplicateRowsCheck
    rw [if_neg (by simpa [List.isEmpty_iff] using h)]
    by_cases hd : dupGroupCount rows = 0
    · simp [hd]
    · simp only [if_neg hd]
      constructor
      · intro hcontra
        exact absurd hcontra (by decide)
      · intro hcontra
        exact absurd hcontra hd

/-- C8 witnessed: a one-column table with no rows has duplicate-group count
zero and passes. -/
theorem c8_duplicate_rows_witness :
    (duplicateRowsCheck [("A", "NUMBER")] []).status = "✅ Pass" :=
  ((c8_duplicate_rows [("A", "NUMBER")] []).2 (by simp)).mpr rfl

/-- C9: when the TEST_CASES table does not exist in the schema (existence
count zero), reading the catalog returns the empty result set and the
category list degrades to the bare "All" sentinel, with no error raised
(the model is total). -/
theorem c9_missing_catalog (o : TestCatalog) (db sch tbl : String)
    (h : o.tcTableCount = 0) :
    getTestCases o db sch tbl = [] ∧ getTestCaseTables o db sch = ["All"] := by
  unfold getTestCases getTestCaseTables
  by_cases hg : db = "" ∨ sch = ""
  · simp [hg]
  · simp [hg, h]

/-- C9 witnessed on a concrete catalog oracle whose existence count is
zero but whose other answers are non-empty. -/
theorem c9_missing_catalog_witness :
    getTestCases emptyCatalog "D" "S" "All" = [] ∧
      getTestCaseTables emptyCatalog "D" "S" = ["All"] :=
  c9_missing_catalog emptyCatalog "D" "S" "All" rfl

/-- C10: the table listing offered to the UI contains a table exactly when
the `SHOW TABLES` answer contains it and its upper-cased name is neither
TEST_CASES nor ORDER_KPIS, so the internal catalog tables are never
offered. -/
theorem c10_internal_tables_hidden (tables : List String) (t : String) :
    t ∈ getTables tables ↔
      t ∈ tables ∧ pyUpper t ≠ "TEST_CASES" ∧ pyUpper t ≠ "ORDER_KPIS" := by
  simp [getTables, List.mem_filter, not_or]

/-- Every column-presence row produced for one column carries that table
and column name, and its shape matches the classification branches. -/
theorem classifyCol_fst_shape (table col : String)
    (s c : List (String × String)) (r : ColDiffRow)
    (hr : r ∈ (classifyCol table col s c).1) :
    r.table = table ∧ r.column = col := by
  unfold classifyCol at hr
  rcases h1 : dictGet s col with _ | st <;>
    rcases h2 : dictGet c col with _ | ct <;>
    rw [h1, h2] at hr <;> simp at hr <;> try (subst hr; exact ⟨rfl, rfl⟩)
  split at hr <;> simp at hr

/-- Every data-type row produced for one column carries that table and
column name. -/
theorem classifyCol_snd_shape (table col : String)
    (s c : List (String × String)) (r : TypeDiffRow)
    (hr : r ∈ (classifyCol table col s c).2) :
    r.table = table ∧ r.column = col := by
  unfold classifyCol at hr
  rcases h1 : dictGet s col with _ | st <;>
    rcases h2 : dictGet c col with _ | ct <;>
    rw [h1, h2] at hr <;> simp at hr
  split at hr <;> simp at hr
  subst hr
  exact ⟨rfl, rfl⟩

/-- Rows of the per-table classification carry the table name. -/
theorem classifyTable_table_eq (table : String)
    (s c : List (String × String)) :
    (∀ r ∈ (classifyTable table s c).1, r.table = table) ∧
      (∀ r ∈ (classifyTable table s c).2, r.table = table) := by
  constructor
  · intro r hr
    unfold classifyTable at hr
    rw [List.mem_flatMap] at hr
    obtain ⟨col, _, hr⟩ := hr
    exact (classifyCol_fst_shape table col s c r hr).1
  · intro r hr
    unfold classifyTable at hr
    rw [List.mem_flatMap] at hr
    obtain ⟨col, _, hr⟩ := hr
    exact (classifyCol_snd_shape table col s c r hr).1

/-- Membership characterisation of the column-presence result list of
`compare_column_differences`: a row appears exactly when some common table
whose two describes succeeded classifies it. -/
theorem mem_compareColumnDifferences_fst (m : SchemaMeta) (r : ColDiffRow) :
    r ∈ (compareColumnDifferences m).1 ↔
      ∃ t, t ∈ commonList m ∧ ∃ s c,
        m.describeSource t = Except.ok s ∧ m.describeClone t = Except.ok c ∧
          r ∈ (classifyTable t s c).1 := by
  unfold compareColumnDifferences
  rw [List.mem_flatMap]
  constructor
  · rintro ⟨t, ht, hr⟩
    refine ⟨t, ht, ?_⟩
    unfold perTableDiffs at hr
    rcases h1 : m.describeSource t with e | s <;> rw [h1] at hr
    · simp at hr
    · rcases h2 : m.describeClone t with e | c <;> rw [h2] at hr
      · simp at hr
      · exact ⟨s, c, rfl, rfl, hr⟩
  · rintro ⟨t, ht, s, c, h1, h2, hr⟩
    refine ⟨t, ht, ?_⟩
    unfold perTableDiffs
    rw [h1, h2]
    exact hr

/-- Membership characterisation of the data-type result list of
`compare_column_differences`. -/
theorem mem_compareColumnDifferences_snd (m : SchemaMeta) (r : TypeDiffRow) :
    r ∈ (compareColumnDifferences m).2 ↔
      ∃ t, t ∈ commonList m ∧ ∃ s c,
        m.describeSource t = Except.ok s ∧ m.describeClone t = Except.ok c ∧
          r ∈ (classifyTable t s c).2 := by
  unfold compareColumnDifferences
  rw [List.mem_flatMap]
  constructor
  · rintro ⟨t, ht, hr⟩
    refine ⟨t, ht, ?_⟩
    unfold perTableDiffs at hr
    rcases h1 : m.describeSource t with e | s <;> rw [h1] at hr
    · simp at hr
    · rcases h2 : m.describeClone t with e | c <;> rw [h2] at hr
      · simp at hr
      · exact ⟨s, c, rfl, rfl, hr⟩
  · rintro ⟨t, ht, s, c, h1, h2, hr⟩
    refine ⟨t, ht, ?_⟩
    unfold perTableDiffs
    rw [h1, h2]
    exact hr

/-- Membership of the common-table list is membership in both schemas. -/
theorem mem_commonList (m : SchemaMeta) (t : String) :
    t ∈ commonList m ↔ t ∈ m.sourceTables ∧ t ∈ m.cloneTables := by
  simp [commonList, List.mem_filter]

/-- A successful dictionary lookup means the key is among the row keys. -/
theorem dictGet_mem_keys (rows : List (String × String)) (col v : String)
    (h : dictGet rows col = some v) : col ∈ rows.map Prod.fst := by
  unfold dictGet at h
  rcases hf : rows.reverse.find? (fun p => p.1 == col) with _ | p
  · rw [hf] at h
    simp at h
  · have hp := List.find?_some hf
    have hmem := List.mem_of_find?_eq_some hf
    rw [List.mem_reverse] at hmem
    have hcol : p.1 = col := by simpa using hp
    exact hcol ▸ List.mem_map_of_mem Prod.fst hmem

/-- A key found on either side belongs to the iterated column union. -/
theorem mem_allColsOf_left (s c : List (String × String)) (col v : String)
    (h : dictGet s col = some v) : col ∈ allColsOf s c := by
  unfold allColsOf
  rw [List.mem_dedup, List.mem_append]
  exact Or.inl (dictGet_mem_keys s col v h)

/-- A key found on the clone side belongs to the iterated column union. -/
theorem mem_allColsOf_right (s c : List (String × String)) (col v : String)
    (h : dictGet c col = some v) : col ∈ allColsOf s c := by
  unfold allColsOf
  rw [List.mem_dedup, List.mem_append]
  exact Or.inr (dictGet_mem_keys c col v h)

/-- A column present on both sides with the same declared type contributes
no row at all. -/
theorem classifyCol_eq_nil (table col : String)
    (s c : List (String × String)) (ty : String)
    (h1 : dictGet s col = some ty) (h2 : dictGet c col = some ty) :
    classifyCol table col s c = ([], []) := by
  unfold classifyCol
  rw [h1, h2]
  simp

/-- C4: the table-level drift output contains a row exactly for the tables
present in one schema and absent from the other, tagged with the side they
are missing from; tables present in both never appear; and the rows are
sorted by (classification, table name). -/
theorem c4_table_drift (s c : List String) :
    (∀ t d, (t, d) ∈ compareTableDifferences s c ↔
        (t ∈ s ∧ t ∉ c ∧ d = "Missing in clone - Table Added") ∨
        (t ∈ c ∧ t ∉ s ∧ d = "Missing in source - Table Dropped")) ∧
    (∀ t, t ∈ s → t ∈ c → ∀ d, (t, d) ∉ compareTableDifferences s c) ∧
    List.Sorted tableDiffLE (compareTableDifferences s c) := by
  have hm : ∀ t d, (t, d) ∈ compareTableDifferences s c ↔
      (t ∈ s ∧ t ∉ c ∧ d = "Missing in clone - Table Added") ∨
      (t ∈ c ∧ t ∉ s ∧ d = "Missing in source - Table Dropped") := by
    intro t d
    unfold compareTableDifferences
    rw [List.mem_insertionSort]
    unfold tableDiffRowsUnsorted
    simp [List.mem_append, List.mem_filter, List.mem_map]
    constructor
    · rintro (⟨a, ⟨h1, h2⟩, rfl, rfl⟩ | ⟨a, ⟨h1, h2⟩, rfl, rfl⟩)
      · exact Or.inl ⟨h1, h2, rfl⟩
      · exact Or.inr ⟨h1, h2, rfl⟩
    · rintro (⟨h1, h2, rfl⟩ | ⟨h1, h2, rfl⟩)
      · exact Or.inl ⟨t, ⟨h1, h2⟩, rfl, rfl⟩
      · exact Or.inr ⟨t, ⟨h1, h2⟩, rfl, rfl⟩
  refine ⟨hm, ?_, ?_⟩
  · intro t hs hc d hmem
    rcases (hm t d).mp hmem with ⟨_, h2, _⟩ | ⟨_, h2, _⟩
    · exact h2 hc
    · exact h2 hs
  · unfold compareTableDifferences
    exact List.sorted_insertionSort tableDiffLE _

/-- C4 witnessed: with source tables A, B and clone tables B, C, the common
table B appears in neither diff row. -/
theorem c4_table_drift_witness :
    ("B", "Missing in clone - Table Added") ∉
      compareTableDifferences ["A", "B"] ["B", "C"] :=
  (c4_table_drift ["A", "B"] ["B", "C"]).2.1 "B" (by simp) (by simp) _

/-- C5: the column-level drift only examines tables present in both
schemas; for a common table whose describes succeeded, a column absent on
one side contributes its row to the column-presence result, a column
present on both sides with differing types contributes its row to the type
result, and a column with identical types contributes no row to either;
the two results are returned as separate tables. -/
theorem c5_column_drift (m : SchemaMeta) :
    (∀ r ∈ (compareColumnDifferences m).1,
        r.table ∈ m.sourceTables ∧ r.table ∈ m.cloneTables) ∧
    (∀ r ∈ (compareColumnDifferences m).2,
        r.table ∈ m.sourceTables ∧ r.table ∈ m.cloneTables) ∧
    (∀ t s c, t ∈ m.sourceTables → t ∈ m.cloneTables →
      m.describeSource t = Except.ok s → m.describeClone t = Except.ok c →
      ∀ col,
        (∀ ct, dictGet s col = none → dictGet c col = some ct →
          (⟨t, col, "Missing in source - Column Dropped", none, some ct⟩ :
              ColDiffRow) ∈ (compareColumnDifferences m).1) ∧
        (∀ st, dictGet s col = some st → dictGet c col = none →
          (⟨t, col, "Missing in clone - Column Added", some st, none⟩ :
              ColDiffRow) ∈ (compareColumnDifferences m).1) ∧
        (∀ st ct, dictGet s col = some st → dictGet c col = some ct →
          st ≠ ct →
          (⟨t, col, st, ct, "Data Type Changed"⟩ : TypeDiffRow) ∈
            (compareColumnDifferences m).2) ∧
        (∀ ty, dictGet s col = some ty → dictGet c col = some ty →
          (∀ r ∈ (compareColumnDifferences m).1,
            ¬(r.table = t ∧ r.column = col)) ∧
          (∀ r ∈ (compareColumnDifferences m).2,
            ¬(r.table = t ∧ r.column = col)))) := by
  refine ⟨?_, ?_, ?_⟩
  · intro r hr
    rcases (mem_compareColumnDifferences_fst m r).mp hr with
      ⟨t, ht, s, c, h1, h2, hmem⟩
    have := (classifyTable_table_eq t s c).1 r hmem
    rw [this]
    exact (mem_commonList m t).mp ht
  · intro r hr
    rcases (mem_compareColumnDifferences_snd m r).mp hr with
      ⟨t, ht, s, c, h1, h2, hmem⟩
    have := (classifyTable_table_eq t s c).2 r hmem
    rw [this]
    exact (mem_commonList m t).mp ht
  · intro t s c hts htc h1 h2 col
    have htcommon : t ∈ commonList m := (mem_commonList m t).mpr ⟨hts, htc⟩
    refine ⟨?_, ?_, ?_, ?_⟩
    · intro ct hs hc
      refine (mem_compareColumnDifferences_fst m _).mpr
        ⟨t, htcommon, s, c, h1, h2, ?_⟩
      unfold classifyTable
      rw [List.mem_flatMap]
      refine ⟨col, mem_allColsOf_right s c col ct hc, ?_⟩
      unfold classifyCol
      rw [hs, hc]
      simp
    · intro st hs hc
      refine (mem_compareColumnDifferences_fst m _).mpr
        ⟨t, htcommon, s, c, h1, h2, ?_⟩
      unfold classifyTable
      rw [List.mem_flatMap]
      refine ⟨col, mem_allColsOf_left s c col st hs, ?_⟩
      unfold classifyCol
      rw [hs, hc]
      simp
    · intro st ct hs hc hne
      refine (mem_compareColumnDifferences_snd m _).mpr
        ⟨t, htcommon, s, c, h1, h2, ?_⟩
      unfold classifyTable
      rw [List.mem_flatMap]
      refine ⟨col, mem_allColsOf_left s c col st hs, ?_⟩
      unfold classifyCol
      rw [hs, hc]
      simp [hne]
    · intro ty hs hc
      constructor
      · intro r hr ⟨hrt, hrc⟩
        rcases (mem_compareColumnDifferences_fst m r).mp hr with
          ⟨t2, ht2, s2, c2, g1, g2, hmem⟩
        unfold classifyTable at hmem
        rw [List.mem_flatMap] at hmem
        obtain ⟨col2, _, hmem⟩ := hmem
        obtain ⟨hrt2, hrc2⟩ := classifyCol_fst_shape t2 col2 s2 c2 r hmem
        have ht2t : t2 = t := by rw [← hrt2, hrt]
        subst ht2t
        have hseq : s2 = s := by
          have := g1.symm.trans h1
          exact (Except.ok.injEq _ _).mp this
        have hceq : c2 = c := by
          have := g2.symm.trans h2
          exact (Except.ok.injEq _ _).mp this
        subst hseq
        subst hceq
        have hcoleq : col2 = col := by rw [← hrc2, hrc]
        subst hcoleq
        rw [classifyCol_eq_nil t2 col2 s2 c2 ty hs hc] at hmem
        simp at hmem
      · intro r hr ⟨hrt, hrc⟩
        rcases (mem_compareColumnDifferences_snd m r).mp hr with
          ⟨t2, ht2, s2, c2, g1, g2, hmem⟩
        unfold classifyTable at hmem
        rw [List.mem_flatMap] at hmem
        obtain ⟨col2, _, hmem⟩ := hmem
        obtain ⟨hrt2, hrc2⟩ := classifyCol_snd_shape t2 col2 s2 c2 r hmem
        have ht2t : t2 = t := by rw [← hrt2, hrt]
        subst ht2t
        have hseq : s2 = s := by
          have := g1.symm.trans h1
          exact (Except.ok.injEq _ _).mp this
        have hceq : c2 = c := by
          have := g2.symm.trans h2
          exact (Except.ok.injEq _ _).mp this
        subst hseq
        subst hceq
        have hcoleq : col2 = col := by rw [← hrc2, hrc]
        subst hcoleq
        rw [classifyCol_eq_nil t2 col2 s2 c2 ty hs hc] at hmem
        simp at hmem

/-- C5 witnessed: one common table T whose single column A changed type
from INT to TEXT contributes exactly its type-diff row. -/
theorem c5_column_drift_witness :
    (⟨"T", "A", "INT", "TEXT", "Data Type Changed"⟩ : TypeDiffRow) ∈
      (compareColumnDifferences typeChangeMeta).2 :=
  ((c5_column_drift typeChangeMeta).2.2 "T" [("A", "INT")] [("A", "TEXT")]
    (by simp [typeChangeMeta]) (by simp [typeChangeMeta]) rfl rfl "A").2.2.1
    "INT" "TEXT" rfl rfl (by decide)

/-- C3, counterexample.  In the column drift scan, the common table T1
whose source-side describe raises is not emitted as an error-tagged row: it
is silently dropped, and both result tables are empty (T2, identical on
both sides, rightly contributes nothing). -/
theorem c3_error_row_counterexample :
    cexMeta.describeSource "T1" = Except.error "boom" ∧
    "T1" ∈ commonList cexMeta ∧
    (compareColumnDifferences cexMeta).1 = [] ∧
    (compareColumnDifferences cexMeta).2 = [] := by
  refine ⟨rfl, by decide, by decide, by decide⟩

/-- C3, amended.  Per-item failures never abort the batch: the test-case
runner still produces one row per selected case, and a failing case is
emitted as an error-tagged row (status EXECUTION ERROR with the truncated
message).  In the column drift scan a failing table also does not abort the
loop — tables whose describes succeed still contribute all their rows —
but the failing table is skipped silently: no row for it appears in either
result table, rather than an error-tagged row being emitted. -/
theorem c3_per_item_amended
    (exec : String → Except String (Option (List String)))
    (db sch : String) (cases : List TestCase) (m : SchemaMeta) :
    (validateTestCases exec db sch cases).1.length = cases.length ∧
    (∀ c ∈ cases, ∀ e,
      exec (qualifySql db sch c.tableName c.sqlCode) = Except.error e →
        (runTestCase exec db sch c).status = "❌ EXECUTION ERROR" ∧
        (runTestCase exec db sch c).actualResult =
          "QUERY ERROR: " ++ firstLine e ∧
        runTestCase exec db sch c ∈ (validateTestCases exec db sch cases).1) ∧
    (∀ t e, m.describeSource t = Except.error e →
      (∀ r ∈ (compareColumnDifferences m).1, r.table ≠ t) ∧
      (∀ r ∈ (compareColumnDifferences m).2, r.table ≠ t)) ∧
    (∀ t e, m.describeClone t = Except.error e →
      (∀ r ∈ (compareColumnDifferences m).1, r.table ≠ t) ∧
      (∀ r ∈ (compareColumnDifferences m).2, r.table ≠ t)) ∧
    (∀ t s c, t ∈ commonList m →
      m.describeSource t = Except.ok s → m.describeClone t = Except.ok c →
      (∀ r ∈ (classifyTable t s c).1, r ∈ (compareColumnDifferences m).1) ∧
      (∀ r ∈ (classifyTable t s c).2, r ∈ (compareColumnDifferences m).2)) := by
  refine ⟨?_, ?_, ?_, ?_, ?_⟩
  · cases cases with
    | nil => simp [validateTestCases]
    | cons a l => simp [validateTestCases]
  · intro c hc e he
    have hne : cases.isEmpty = false := by
      cases cases with
      | nil => cases hc
      | cons a l => rfl
    refine ⟨?_, ?_, ?_⟩
    · simp [runTestCase, he]
    · simp [runTestCase, he]
    · rw [validateTestCases, hne]
      simp only [Bool.false_eq_true, if_false]
      exact List.mem_map_of_mem (runTestCase exec db sch) hc
  · intro t e he
    constructor
    · intro r hr heq
      rcases (mem_compareColumnDifferences_fst m r).mp hr with
        ⟨t2, _, s2, c2, g1, _, hmem⟩
      have := (classifyTable_table_eq t2 s2 c2).1 r hmem
      rw [this] at heq
      subst heq
      rw [he] at g1
      cases g1
    · intro r hr heq
      rcases (mem_compareColumnDifferences_snd m r).mp hr with
        ⟨t2, _, s2, c2, g1, _, hmem⟩
      have := (classifyTable_table_eq t2 s2 c2).2 r hmem
      rw [this] at heq
      subst heq
      rw [he] at g1
      cases g1
  · intro t e he
    constructor
    · intro r hr heq
      rcases (mem_compareColumnDifferences_fst m r).mp hr with
        ⟨t2, _, s2, c2, _, g2, hmem⟩
      have := (classifyTable_table_eq t2 s2 c2).1 r hmem
      rw [this] at heq
      subst heq
      rw [he] at g2
      cases g2
    · intro r hr heq
      rcases (mem_compareColumnDifferences_snd m r).mp hr with
        ⟨t2, _, s2, c2, _, g2, hmem⟩
      have := (classifyTable_table_eq t2 s2 c2).2 r hmem
      rw [this] at heq
      subst heq
      rw [he] at g2
      cases g2
  · intro t s c ht h1 h2
    constructor
    · intro r hr
      exact (mem_compareColumnDifferences_fst m r).mpr ⟨t, ht, s, c, h1, h2, hr⟩
    · intro r hr
      exact (mem_compareColumnDifferences_snd m r).mpr ⟨t, ht, s, c, h1, h2, hr⟩

/-- C3, amended claim witnessed: a case whose query raises is reported with
the EXECUTION ERROR status rather than dropped. -/
theorem c3_per_item_amended_witness :
    (runTestCase execBoom "D" "S" caseErr).status = "❌ EXECUTION ERROR" :=
  ((c3_per_item_amended execBoom "D" "S" [caseErr] cexMeta).2.1 caseErr
    (by simp) "boom" rfl).1

/-- C6: for every schema clone request, a missing source schema (the LIKE
probe answering no rows) reports failure and issues no clone statement;
and when the run completes with a summary whose source and clone table
counts differ, the operation still reports success with the summary status
marked Partial Success. -/
theorem c6_clone_schema
    (exec : CloneStmt → Except String (List (List String)))
    (db src tgt : String) :
    (exec (CloneStmt.showSchemasLike src db) = Except.ok [] →
      (cloneSchemaRun exec db src tgt).success = false ∧
      ∀ a b c2, CloneStmt.createOrReplaceClone a b c2 ∉
        (cloneSchemaRun exec db src tgt).issued) ∧
    (∀ sm, (cloneSchemaRun exec db src tgt).summary = some sm →
      sm.sourceTables ≠ sm.clonedTables →
        (cloneSchemaRun exec db src tgt).success = true ∧
        sm.status = "⚠️ Partial Success") := by
  by_cases hg : db = "" ∨ src = "" ∨ tgt = ""
  · constructor
    · intro _
      constructor
      · simp [cloneSchemaRun, hg]
      · intro a b c2
        simp [cloneSchemaRun, hg]
    · intro sm hs
      simp [cloneSchemaRun, hg] at hs
  · rcases h1 : exec (CloneStmt.showSchemasLike src db) with e1 | rows1
    · constructor
      · intro h
        exact absurd h (by simp)
      · intro sm hs
        simp [cloneSchemaRun, hg, h1] at hs
    · rcases rows1 with _ | ⟨r1, rs1⟩
      · constructor
        · intro _
          constructor
          · simp [cloneSchemaRun, hg, h1]
          · intro a b c2
            simp [cloneSchemaRun, hg, h1]
        · intro sm hs
          simp [cloneSchemaRun, hg, h1] at hs
      · rcases h2 : exec (CloneStmt.createOrReplaceClone db tgt src) with
          e2 | rows2
        · refine ⟨fun h => absurd h (by simp), fun sm hs => ?_⟩
          simp [cloneSchemaRun, hg, h1, h2] at hs
        · rcases h3 : exec (CloneStmt.showSchemasLike tgt db) with e3 | rows3
          · refine ⟨fun h => absurd h (by simp), fun sm hs => ?_⟩
            simp [cloneSchemaRun, hg, h1, h2, h3] at hs
          · rcases rows3 with _ | ⟨r3, rs3⟩
            · refine ⟨fun h => absurd h (by simp), fun sm hs => ?_⟩
              simp [cloneSchemaRun, hg, h1, h2, h3] at hs
            · rcases h4 : exec (CloneStmt.showTablesIn db src) with
                e4 | sourceRows
              · refine ⟨fun h => absurd h (by simp), fun sm hs => ?_⟩
                simp [cloneSchemaRun, hg, h1, h2, h3, h4] at hs
              · rcases h5 : exec (CloneStmt.showTablesIn db tgt) with
                  e5 | cloneRows
                · refine ⟨fun h => absurd h (by simp), fun sm hs => ?_⟩
                  simp [cloneSchemaRun, hg, h1, h2, h3, h4, h5] at hs
                · refine ⟨fun h => absurd h (by simp), fun sm hs hne => ?_⟩
                  rw [show cloneSchemaRun exec db src tgt = ⟨true,
                      "✅ Successfully Mirrored Schema " ++ db ++ "." ++
                        src ++ " to " ++ db ++ "." ++ tgt,
                      some ⟨db, src, tgt, sourceRows.length,
                        cloneRows.length,
                        if sourceRows.length = cloneRows.length then
                          "✅ Success"
                        else "⚠️ Partial Success"⟩,
                      [CloneStmt.showSchemasLike src db,
                        CloneStmt.createOrReplaceClone db tgt src,
                        CloneStmt.showSchemasLike tgt db,
                        CloneStmt.showTablesIn db src,
                        CloneStmt.showTablesIn db tgt]⟩ by
                    simp [cloneSchemaRun, hg, h1, h2, h3, h4, h5]] at hs ⊢
                  simp only [Option.some.injEq] at hs
                  subst hs
                  refine ⟨rfl, ?_⟩
                  have hlen : sourceRows.length ≠ cloneRows.length := by
                    intro hcontra2
                    apply hne
                    simpa using hcontra2
                  simp [hlen]

/-- C6 witnessed on both branches: an oracle with no matching source schema
yields failure, and an oracle with a one-table source and an empty clone
yields success with the Partial Success status. -/
theorem c6_clone_schema_witness :
    (cloneSchemaRun execCloneMissing "D" "SRC" "TGT").success = false ∧
    (cloneSchemaRun execCloneMismatch "D" "SRC" "TGT").success = true := by
  constructor
  · exact ((c6_clone_schema execCloneMissing "D" "SRC" "TGT").1 rfl).1
  · exact ((c6_clone_schema execCloneMismatch "D" "SRC" "TGT").2
      ⟨"D", "SRC", "TGT", 1, 0,
        "⚠️ Partial Success"⟩ (by decide) (by decide)).1
